import Mathlib

/-!
# Verification of the SmartSMS inbound-message pipeline

Shallow embedding of the SmartSMS Home Assistant integration
(`custom_components/smartsms`): the text sanitizer
(`__init__._sanitize_message_text`), the webhook handler
(`webhook.handle_webhook` and its helpers `_extract_message_data`,
`_should_process_message`, `_check_keywords`), the data-store pruning
(`data_store.SmartSMSDataStore._cleanup_old_messages`) and the binary
sensor's event handler
(`binary_sensor.SmartSMSBinarySensor._handle_message_received`).

Strings are modelled as Lean `String` (a list of unicode scalar values,
matching Python `str` as a sequence of code points). Python standard
library helpers used by the code (`urllib.parse.unquote_plus`,
`html.unescape`, `urllib.parse.parse_qs`, `datetime.fromisoformat`) are
modelled explicitly below; each model's doc comment states its scope.
-/

/-- The markdown/markup trigger characters removed by the sanitizer;
verbatim the list `['*', '_', '`', '#', '[', ']', '!', '|', '\\', '^', '>', '<', '~']`
from `_sanitize_message_text` (a backquote is written `Char.ofNat 96`). -/
def markupChars : List Char :=
  ['*', '_', Char.ofNat 96, '#', '[', ']', '!', '|', '\\', '^', '>', '<', '~']

/-- Hexadecimal digit test, matching the character class `[0-9A-Fa-f]`. -/
def isHexDigitCh (c : Char) : Bool :=
  ('0' ≤ c && c ≤ '9') || ('a' ≤ c && c ≤ 'f') || ('A' ≤ c && c ≤ 'F')

/-- Numeric value of a hexadecimal digit. -/
def hexVal (c : Char) : Nat :=
  if '0' ≤ c && c ≤ '9' then c.toNat - 48
  else if 'a' ≤ c && c ≤ 'f' then c.toNat - 87
  else c.toNat - 55

/-- Models Python `urllib.parse.unquote_plus` byte-wise: `+` becomes a
space and `%hh` (two hex digits) becomes the character with that code;
a `%` not followed by two hex digits is kept literally.  (Python decodes
percent-escaped bytes as UTF-8; this model decodes each escaped byte to
the code point of its value.  The difference only concerns escapes of
bytes ≥ 0x80, which in either reading produce a non-ASCII character that
the downstream ASCII filter of the sanitizer removes.) -/
def unquotePlus : List Char → List Char
  | [] => []
  | '%' :: a :: b :: rest =>
    if isHexDigitCh a && isHexDigitCh b then
      Char.ofNat (16 * hexVal a + hexVal b) :: unquotePlus rest
    else
      '%' :: unquotePlus (a :: b :: rest)
  | '+' :: rest => ' ' :: unquotePlus rest
  | c :: rest => c :: unquotePlus rest

/-- Models `re.search(r'%[0-9A-Fa-f]{2}', text)`: is there a `%`
followed by two hexadecimal digits anywhere in the text? -/
def hasPercentEscape : List Char → Bool
  | '%' :: a :: b :: rest =>
    (isHexDigitCh a && isHexDigitCh b) || hasPercentEscape (a :: b :: rest)
  | _ :: rest => hasPercentEscape rest
  | [] => false

/-- Models Python `html.unescape` restricted to the common named
entities `&amp; &lt; &gt; &quot; &apos; &nbsp;` (with terminating
semicolon); any other `&` is kept literally.  On entity-free input it is
the identity, which is the only fact the theorems below rely on. -/
def htmlUnescape : List Char → List Char
  | [] => []
  | c :: rest =>
    if c = '&' then
      match rest with
      | 'a' :: 'm' :: 'p' :: ';' :: r => '&' :: htmlUnescape r
      | 'l' :: 't' :: ';' :: r => '<' :: htmlUnescape r
      | 'g' :: 't' :: ';' :: r => '>' :: htmlUnescape r
      | 'q' :: 'u' :: 'o' :: 't' :: ';' :: r => '"' :: htmlUnescape r
      | 'a' :: 'p' :: 'o' :: 's' :: ';' :: r => Char.ofNat 39 :: htmlUnescape r
      | 'n' :: 'b' :: 's' :: 'p' :: ';' :: r => Char.ofNat 160 :: htmlUnescape r
      | other => '&' :: htmlUnescape other
    else c :: htmlUnescape rest

/-- Step 3 of `_sanitize_message_text`: keep printable ASCII (32–126)
except the markup characters, map TAB/LF/CR to a space, drop everything
else. -/
def asciiFilter : List Char → List Char
  | [] => []
  | c :: rest =>
    if 32 ≤ c.toNat && c.toNat ≤ 126 then
      if markupChars.contains c then asciiFilter rest
      else c :: asciiFilter rest
    else if c.toNat = 9 then ' ' :: asciiFilter rest
    else if c.toNat = 10 || c.toNat = 13 then ' ' :: asciiFilter rest
    else asciiFilter rest

/-- The characters matched by Python's `\s` on ASCII text (space, TAB,
LF, VT, FF, CR); these are also exactly the characters `str.strip`
removes on such text. -/
def isPyWhitespace (c : Char) : Bool :=
  c = ' ' || c = Char.ofNat 9 || c = Char.ofNat 10 ||
  c = Char.ofNat 11 || c = Char.ofNat 12 || c = Char.ofNat 13

/-- Worker for `collapseWs`; the flag says whether the previously
emitted character position was inside a whitespace run. -/
def collapseWsAux : Bool → List Char → List Char
  | _, [] => []
  | prevWs, c :: rest =>
    if isPyWhitespace c then
      if prevWs then collapseWsAux true rest
      else ' ' :: collapseWsAux true rest
    else c :: collapseWsAux false rest

/-- Models `re.sub(r'\s+', ' ', text)`: every maximal run of whitespace
characters becomes a single space. -/
def collapseWs (l : List Char) : List Char := collapseWsAux false l

/-- Remove trailing whitespace characters. -/
def dropTrailWs : List Char → List Char
  | [] => []
  | c :: rest =>
    match dropTrailWs rest with
    | [] => if isPyWhitespace c then [] else [c]
    | r => c :: r

/-- Models Python `str.strip()` on ASCII text: drop leading and trailing
whitespace. -/
def stripWs (l : List Char) : List Char := dropTrailWs (l.dropWhile isPyWhitespace)

/-- Embedding of `_sanitize_message_text` (`__init__.py`): empty input
is returned as is (`if not text: return text`); otherwise the text is
percent-decoded when it contains a `%hh` escape (Step 1), HTML-entity
decoded (Step 2), filtered to printable ASCII minus the markup set with
TAB/LF/CR mapped to spaces (Step 3), and finally whitespace-collapsed
and stripped (Step 4).  (The debug logging of the source has no effect
on the returned value and is not modelled.) -/
def sanitizeMessageText (s : String) : String :=
  if s = "" then s
  else
    let step1 := if s.data.contains '%' && hasPercentEscape s.data then unquotePlus s.data else s.data
    let step2 := htmlUnescape step1
    let step3 := asciiFilter step2
    let step4 := stripWs (collapseWs step3)
    String.mk step4

/-- The character property claimed for sanitizer output: printable
ASCII and not a markup trigger. -/
def allowedChar (c : Char) : Bool :=
  32 ≤ c.toNat && c.toNat ≤ 126 && !(markupChars.contains c)

example : sanitizeMessageText "Hello*World" = "HelloWorld" := by decide
example : sanitizeMessageText "  a   b  " = "a b" := by decide
example : sanitizeMessageText "%2B61" = "+61" := by decide

/-!
## Webhook pipeline (`webhook.py`)

The webhook handler `handle_webhook` is modelled as a pure function of
the request ingredients that determine its behaviour: the payload size
declared by the transport, whether the webhook id maps to a config
entry, the outcome of `_parse_request_data` (a flat key/value map, or
nothing on parse failure), the instance configuration, and the outcome
of the (never executed, see below) signature check.  Wall-clock
timestamps do not influence any verified property and are omitted from
the canonical record.  The regular-expression engine used by
`regex:`-prefixed keywords is abstracted as a function parameter.
-/

/-- Python `dict.get(key)`: first binding wins (parsed payloads never
hold duplicate keys). -/
def dictGet : List (String × String) → String → Option String
  | [], _ => none
  | (k, v) :: rest, key => if k = key then some v else dictGet rest key

/-- Python `dict.get(key, default)`. -/
def dictGetD (data : List (String × String)) (key dflt : String) : String :=
  match dictGet data key with
  | some v => v
  | none => dflt

/-- The canonical inbound-message record built by
`_extract_message_data` / the test branch of `handle_webhook`.  The
`timestamp` field of the source (wall clock, or a parsed `DateSent`
falling back to the wall clock) is omitted: it is non-deterministic
and no verified property mentions it. -/
structure MessageData where
  body : String
  sender : String
  to_number : String
  message_sid : String
  provider : String
  matched_keywords : List String
deriving DecidableEq

/-- The per-instance configuration fields consulted by the webhook
pipeline (`entry.data`). -/
structure InstanceConfig where
  auth_token : Option String
  sender_whitelist : List String
  sender_blacklist : List String
  keywords : List String
deriving DecidableEq

/-- Embedding of `_extract_message_data`: read `Body`/`From`/`To`/
`MessageSid` with empty-string defaults, reject when body or sender is
empty, truncate the body to 1600 characters (`body[:1600]`, a slice of
code points), and tag the provider `"twilio"`. -/
def extractMessageData (data : List (String × String)) : Option MessageData :=
  let body := dictGetD data "Body" ""
  let sender := dictGetD data "From" ""
  let to_number := dictGetD data "To" ""
  let message_sid := dictGetD data "MessageSid" ""
  if body = "" || sender = "" then none
  else
    let body := if body.length > 1600 then String.mk (body.data.take 1600) else body
    some { body := body, sender := sender, to_number := to_number,
           message_sid := message_sid, provider := "twilio", matched_keywords := [] }

/-- Embedding of `_should_process_message`: a non-empty whitelist the
sender is not on drops the message; then a non-empty blacklist the
sender is on drops the message; otherwise it passes.  (Note the second
check is reached even when the sender passed a non-empty whitelist.) -/
def shouldProcessMessage (config : InstanceConfig) (message : MessageData) : Bool :=
  if !config.sender_whitelist.isEmpty && !(config.sender_whitelist.contains message.sender) then false
  else if !config.sender_blacklist.isEmpty && config.sender_blacklist.contains message.sender then false
  else true

/-- Does the second list start with the first? -/
def startsWithSeq : List Char → List Char → Bool
  | [], _ => true
  | _ :: _, [] => false
  | a :: as, b :: bs => a = b && startsWithSeq as bs

/-- Python's substring operator `needle in haystack` on code-point
sequences.  An empty needle is contained in everything. -/
def containsSeq (needle : List Char) : List Char → Bool
  | [] => startsWithSeq needle []
  | c :: rest => startsWithSeq needle (c :: rest) || containsSeq needle rest

/-- Python `str.lower()` restricted to ASCII letters, which is all the
verified properties exercise. -/
def lowerAscii (l : List Char) : List Char :=
  l.map fun c => if 'A' ≤ c && c ≤ 'Z' then Char.ofNat (c.toNat + 32) else c

/-- One keyword test from `_check_keywords`: a `regex:`-prefixed
keyword is a case-insensitive regex search (the regex engine is the
abstract parameter `regexSearch`, given the pattern after the prefix
and the body; a pattern whose compilation raises `re.error` is modelled
by `regexSearch` returning `false`, matching the source's log-and-skip);
any other keyword is a case-insensitive substring test. -/
def keywordMatches (regexSearch : String → String → Bool) (keyword body : String) : Bool :=
  if startsWithSeq "regex:".data keyword.data then regexSearch (String.mk (keyword.data.drop 6)) body
  else containsSeq (lowerAscii keyword.data) (lowerAscii body.data)

/-- Embedding of `_check_keywords`: the matched keywords in
configuration order. -/
def checkKeywords (regexSearch : String → String → Bool) (keywords : List String) (body : String) : List String :=
  if keywords.isEmpty then []
  else keywords.filter (fun k => keywordMatches regexSearch k body)

/-- The events `handle_webhook` publishes on the host event bus, in
firing order: the unconditional `smartsms_webhook_test` debug event,
the domain events `smartsms_message_received` / `smartsms_test_success`
/ `smartsms_keyword_matched`, and the `smartsms_data_updated` refresh
hint fired by `_update_entities`. -/
inductive DomainEvent where
  | webhookTest
  | messageReceived (payload : MessageData)
  | testSuccess
  | keywordMatched (payload : MessageData)
  | dataUpdated
deriving DecidableEq

/-- Predicate selecting `smartsms_message_received` events. -/
def isMessageReceivedEvent : DomainEvent → Bool
  | DomainEvent.messageReceived _ => true
  | _ => false

/-- HTTP response of the handler. -/
structure WebhookResponse where
  status : Nat
  text : String
deriving DecidableEq

/-- Observable outcome of one webhook delivery: the HTTP response, the
events fired on the bus (in order), and the record handed to
`SmartSMSDataStore.store_message` (if any). -/
structure WebhookResult where
  response : WebhookResponse
  events : List DomainEvent
  stored : Option MessageData
deriving DecidableEq

/-- The payload size guard of `handle_webhook`:
`if content_length and content_length > 10000` (an absent or zero
`Content-Length` skips the check). -/
def tooLarge : Option Nat → Bool
  | some n => n > 10000
  | none => false

/-- Embedding of `handle_webhook` (`webhook.py`).  Inputs: the abstract
regex engine, the instance configuration, the outcome the disabled
signature check would have (`signatureValid`), the declared payload
size, whether the webhook id resolved to a config entry
(`entryFound`, merging the two consecutive 404 lookups of the source),
and the parsed payload (`none` models `_parse_request_data` failure).
The source guard `if False and auth_token and not
_validate_twilio_signature(...)` is embedded verbatim as a conjunction
starting with `false`. -/
def handleWebhook (regexSearch : String → String → Bool) (config : InstanceConfig)
    (signatureValid : Bool) (contentLength : Option Nat) (entryFound : Bool)
    (parsed : Option (List (String × String))) : WebhookResult :=
  if tooLarge contentLength then
    { response := { status := 413, text := "Payload too large" },
      events := [DomainEvent.webhookTest], stored := none }
  else if !entryFound then
    { response := { status := 404, text := "Webhook not found" },
      events := [DomainEvent.webhookTest], stored := none }
  else match parsed with
  | none =>
    { response := { status := 400, text := "Invalid request data" },
      events := [DomainEvent.webhookTest], stored := none }
  | some data =>
    if dictGet data "Body" = some "Test+from+curl" ∨ dictGet data "Body" = some "Test from curl" then
      let testMessage : MessageData :=
        { body := "Webhook Test Successful",
          sender := dictGetD data "From" "+TEST",
          to_number := dictGetD data "To" "+TEST",
          message_sid := dictGetD data "MessageSid" "TEST",
          provider := "test", matched_keywords := [] }
      { response := { status := 200, text := "Test message processed successfully" },
        events := [DomainEvent.webhookTest, DomainEvent.messageReceived testMessage,
                   DomainEvent.testSuccess, DomainEvent.dataUpdated],
        stored := some testMessage }
    else if false && config.auth_token.isSome && !signatureValid then
      { response := { status := 403, text := "Invalid signature" },
        events := [DomainEvent.webhookTest], stored := none }
    else match extractMessageData data with
    | none =>
      { response := { status := 400, text := "Invalid message data" },
        events := [DomainEvent.webhookTest], stored := none }
    | some messageData =>
      if !shouldProcessMessage config messageData then
        { response := { status := 200, text := "Message filtered" },
          events := [DomainEvent.webhookTest], stored := none }
      else
        let matched := checkKeywords regexSearch config.keywords messageData.body
        let messageData :=
          if !matched.isEmpty then { messageData with matched_keywords := matched } else messageData
        { response := { status := 200, text := "Message processed" },
          events := [DomainEvent.webhookTest, DomainEvent.messageReceived messageData] ++
            (if !matched.isEmpty then [DomainEvent.keywordMatched messageData] else []) ++
            [DomainEvent.dataUpdated],
          stored := some messageData }

/-- Split a character sequence at every occurrence of `sep`. -/
def splitOnCh (sep : Char) : List Char → List (List Char)
  | [] => [[]]
  | c :: rest =>
    let r := splitOnCh sep rest
    if c = sep then [] :: r
    else match r with
      | [] => [[c]]
      | h :: t => (c :: h) :: t

/-- Split a character sequence at the first `=`, like
`name_value.split('=', 1)`; `none` when there is no `=`. -/
def splitFirstEq : List Char → Option (List Char × List Char)
  | [] => none
  | c :: rest =>
    if c = '=' then some ([], rest)
    else match splitFirstEq rest with
      | none => none
      | some (k, v) => some (c :: k, v)

/-- Models `urllib.parse.parse_qs` followed by the handler's
`{k: v[0] if v else '' for ...}` flattening, as used on the raw-text
fallback path of `_parse_request_data` (the primary `request.post()`
form path produces the same mapping for a form-encoded body): split on
`&`, split each pair at the first `=`, percent-plus-decode both sides;
pairs without `=` or with an empty raw value are omitted
(`keep_blank_values=False`). -/
def parseQs (s : String) : List (String × String) :=
  (splitOnCh '&' s.data).filterMap (fun pair =>
    match splitFirstEq pair with
    | none => none
    | some (k, v) =>
      if v = [] then none
      else some (String.mk (unquotePlus k), String.mk (unquotePlus v)))

example :
    parseQs "Body=Hello*World&From=%2B61412345678&To=%2B61400000000&MessageSid=SM123" =
      [("Body", "Hello*World"), ("From", "+61412345678"),
       ("To", "+61400000000"), ("MessageSid", "SM123")] := by decide

/-!
## Message store pruning (`data_store.py`)

`SmartSMSDataStore._cleanup_old_messages` filters the history list,
keeping an entry when it has no (or an empty) `stored_at` string, when
`datetime.fromisoformat` cannot parse it (`ValueError`) or the parsed
value cannot be compared with the timezone-aware cutoff (`TypeError`,
raised for timezone-naive strings — the `except` clause catches both),
and otherwise exactly when the parsed instant is strictly newer than
`utcnow() - timedelta(days=DEFAULT_MESSAGE_RETENTION_DAYS)`.
Instants are modelled as integers counting microseconds since the Unix
epoch — microsecond precision is required because the `stored_at`
values `store_message` writes are `dt_util.utcnow().isoformat()`
strings carrying microseconds, and the cutoff is itself a
microsecond-precision instant.
-/

/-- Decimal digit test. -/
def isDigitCh (c : Char) : Bool := '0' ≤ c && c ≤ '9'

/-- Numeric value of a decimal digit. -/
def digitVal (c : Char) : Nat := c.toNat - 48

/-- Models `str.replace('Z', '+00:00')` (every occurrence). -/
def zReplace : List Char → List Char
  | [] => []
  | c :: rest =>
    if c = 'Z' then '+' :: '0' :: '0' :: ':' :: '0' :: '0' :: zReplace rest
    else c :: zReplace rest

/-- Gregorian leap-year test. -/
def isLeapYear (y : Nat) : Bool := (y % 4 = 0 && y % 100 ≠ 0) || y % 400 = 0

/-- Length of a month in the proleptic Gregorian calendar. -/
def daysInMonth (y m : Nat) : Nat :=
  if m = 2 then (if isLeapYear y then 29 else 28)
  else if m = 4 || m = 6 || m = 9 || m = 11 then 30 else 31

/-- Days from 1970-01-01 to the given civil date (standard
days-from-civil computation, valid for all years ≥ 1). -/
def daysFromCivil (y m d : Nat) : Int :=
  let yy : Int := if m ≤ 2 then (y : Int) - 1 else (y : Int)
  let era : Int := yy / 400
  let yoe : Int := yy - era * 400
  let mp : Int := ((m : Int) + 9) % 12
  let doy : Int := (153 * mp + 2) / 5 + (d : Int) - 1
  let doe : Int := yoe * 365 + yoe / 4 - yoe / 100 + doy
  era * 146097 + doe - 719468

/-- Read exactly two decimal digits; return their value and the rest. -/
def parseTwoDigits : List Char → Option (Nat × List Char)
  | a :: b :: rest =>
    if isDigitCh a && isDigitCh b then some (10 * digitVal a + digitVal b, rest) else none
  | _ => none

/-- Longest leading run of decimal digits, and the rest. -/
def takeDigits : List Char → (List Char × List Char)
  | [] => ([], [])
  | c :: rest =>
    if isDigitCh c then
      let (ds, r) := takeDigits rest
      (c :: ds, r)
    else ([], c :: rest)

/-- Fractional-second digits to microseconds, as `fromisoformat` reads
them (Python ≥ 3.11 accepts any number of digits and truncates beyond
six): keep the first six digits, right-pad with zeros. -/
def fracToMicros (ds : List Char) : Nat :=
  (ds.take 6 ++ List.replicate (6 - ds.length) '0').foldl
    (fun acc c => 10 * acc + digitVal c) 0

/-- Parse the optional `:SS[.digits]` tail of a time: returns the
second, the microseconds, and the rest.  A `:` must be followed by two
digits, and a `.` by at least one digit, else the string is rejected. -/
def parseSecFrac : List Char → Option (Nat × Nat × List Char)
  | ':' :: rest =>
    match parseTwoDigits rest with
    | none => none
    | some (se, rest2) =>
      match rest2 with
      | '.' :: rest3 =>
        match takeDigits rest3 with
        | ([], _) => none
        | (ds, rest4) => some (se, fracToMicros ds, rest4)
      | _ => some (se, 0, rest2)
  | rest => some (0, 0, rest)

/-- Parse a `±HH:MM` UTC offset, in seconds.  An empty rest means the
datetime is timezone-naive — `none`, since comparing it with the aware
cutoff raises `TypeError` (caught and treated like a parse failure by
the caller).  Offset minutes and hours are bounded as `timezone`
requires. -/
def parseOffset : List Char → Option Int
  | c :: oh1 :: oh2 :: ':' :: om1 :: om2 :: [] =>
    if (c = '+' || c = '-') && [oh1, oh2, om1, om2].all isDigitCh then
      let oh := 10 * digitVal oh1 + digitVal oh2
      let om := 10 * digitVal om1 + digitVal om2
      if oh ≤ 23 && om ≤ 59 then
        some ((if c = '+' then 1 else -1) * ((oh : Int) * 3600 + (om : Int) * 60))
      else none
    else none
  | _ => none

/-- Models `datetime.fromisoformat(s.replace('Z', '+00:00'))` followed
by comparison against an aware UTC instant, returning microseconds
since the Unix epoch.  The grammar covered (after the `Z` replacement)
is `YYYY-MM-DDTHH:MM[:SS[.digits]]±HH:MM`, which includes every value
`store_message` itself writes (`utcnow().isoformat()`: microsecond
precision, `+00:00` offset) as well as non-UTC offsets and
second-precision forms.  Any other string — an invalid or out-of-range
date/time (`ValueError`), a timezone-naive string (whose comparison
with the aware cutoff raises `TypeError`), or an exotic shape outside
this grammar (hour-only times, basic `±HHMM` offsets, comma decimal
separators) — yields `none`, which the caller treats as "retain". -/
def parseIsoUtc (s : String) : Option Int :=
  match zReplace s.data with
  | y1 :: y2 :: y3 :: y4 :: '-' :: mo1 :: mo2 :: '-' :: d1 :: d2 :: 'T' ::
      h1 :: h2 :: ':' :: mi1 :: mi2 :: rest =>
    if [y1, y2, y3, y4, mo1, mo2, d1, d2, h1, h2, mi1, mi2].all isDigitCh then
      let y := 1000 * digitVal y1 + 100 * digitVal y2 + 10 * digitVal y3 + digitVal y4
      let mo := 10 * digitVal mo1 + digitVal mo2
      let d := 10 * digitVal d1 + digitVal d2
      let h := 10 * digitVal h1 + digitVal h2
      let mi := 10 * digitVal mi1 + digitVal mi2
      match parseSecFrac rest with
      | none => none
      | some (se, us, rest2) =>
        match parseOffset rest2 with
        | none => none
        | some off =>
          if 1 ≤ y && 1 ≤ mo && mo ≤ 12 && 1 ≤ d && d ≤ daysInMonth y mo &&
             h ≤ 23 && mi ≤ 59 && se ≤ 59 then
            some ((daysFromCivil y mo d * 86400 + (h : Int) * 3600 + (mi : Int) * 60 +
              (se : Int)) * 1000000 + (us : Int) - off * 1000000)
          else none
    else none
  | _ => none

/-- One entry of `entry_data["message_history"]`: the stored record
plus the `stored_at` tag added by `store_message` (`none` models a
legacy entry without the key; `some ""` an empty string, which the
source's `if not stored_at_str` guard also retains). -/
structure HistoryEntry where
  message : MessageData
  stored_at : Option String
deriving DecidableEq

/-- The retention cutoff
`utcnow() - timedelta(days=DEFAULT_MESSAGE_RETENTION_DAYS)` with
`DEFAULT_MESSAGE_RETENTION_DAYS = 180` (`const.py`), in microseconds
since the Unix epoch. -/
def retentionCutoff (now : Int) : Int := now - 180 * 86400 * 1000000

/-- Embedding of `SmartSMSDataStore._cleanup_old_messages`: keep an
entry when `stored_at` is absent or empty, unparseable/incomparable,
or parses to an instant strictly greater than the cutoff. -/
def cleanupOldMessages (now : Int) (history : List HistoryEntry) : List HistoryEntry :=
  history.filter (fun msg =>
    match msg.stored_at with
    | none => true
    | some s =>
      if s = "" then true
      else match parseIsoUtc s with
        | none => true
        | some t => t > retentionCutoff now)

example : parseIsoUtc "2024-01-01T00:00:00+00:00" = some 1704067200000000 := by decide
example : parseIsoUtc "2024-01-01T00:00:00Z" = some 1704067200000000 := by decide
example : parseIsoUtc "2024-01-01T00:00:00.123456+00:00" = some 1704067200123456 := by decide
example : parseIsoUtc "2024-01-01T00:00:00.5+00:00" = some 1704067200500000 := by decide
example : parseIsoUtc "2023-12-31T14:00:00-10:00" = some 1704067200000000 := by decide
example : parseIsoUtc "2024-01-01T10:30:00+10:30" = some 1704067200000000 := by decide
example : parseIsoUtc "2024-01-01T00:00+00:00" = some 1704067200000000 := by decide
example : parseIsoUtc "2024-01-01T00:00:00" = none := by decide
example : parseIsoUtc "2024-01-01T00:00:00.123456" = none := by decide
example : parseIsoUtc "2024-13-01T00:00:00+00:00" = none := by decide
example : parseIsoUtc "not-a-date" = none := by decide

/-!
## Binary sensor (`binary_sensor.py`)

`SmartSMSBinarySensor._handle_message_received` runs for every
`smartsms_message_received` event on the bus.  Its only guard is that
the integration's domain data exists and contains the sensor's own
config-entry id; nothing in the handler inspects the event payload.
-/

set_option linter.unusedVariables false in
/-- Embedding of `_handle_message_received` composed with
`_trigger_new_message`'s state change: `domainData` is
`hass.data.get(DOMAIN)` (`none` when the key is absent) as the list of
entry ids it holds, `entryId` the sensor's own entry, `event` the
payload of the received event, and `isOn` the sensor state before the
event; the result is the state after. -/
def handleMessageReceived (domainData : Option (List String)) (entryId : String)
    (event : MessageData) (isOn : Bool) : Bool :=
  match domainData with
  | none => isOn
  | some entries => if entries.contains entryId then true else isOn

/-!
## Sanitizer invariants

Facts about the output of `_sanitize_message_text` used by the
sanitizer claims: its characters are printable ASCII outside the markup
set, and its whitespace is normalized (no leading, trailing, or
adjacent whitespace).
-/

/-- The list does not start with a whitespace character. -/
def noLeadWs : List Char → Bool
  | [] => true
  | c :: _ => !isPyWhitespace c

/-- No two adjacent characters of the list are both whitespace. -/
def noAdjWs : List Char → Bool
  | [] => true
  | c :: rest => (!isPyWhitespace c || noLeadWs rest) && noAdjWs rest

/-- The list does not end with a whitespace character. -/
def noTrailWs : List Char → Bool
  | [] => true
  | c :: rest =>
    match rest with
    | [] => !isPyWhitespace c
    | d :: rest2 => noTrailWs (d :: rest2)

theorem mem_asciiFilter (l : List Char) (c : Char) (h : c ∈ asciiFilter l) :
    allowedChar c = true := by
  induction l with
  | nil => simp [asciiFilter] at h
  | cons a rest ih =>
    rw [asciiFilter] at h
    split at h
    · split at h
      · exact ih h
      · rcases List.mem_cons.mp h with rfl | hm
        · simp_all [allowedChar]
        · exact ih hm
    · split at h
      · rcases List.mem_cons.mp h with rfl | hm
        · decide
        · exact ih hm
      · split at h
        · rcases List.mem_cons.mp h with rfl | hm
          · decide
          · exact ih hm
        · exact ih h

theorem mem_collapseWsAux (l : List Char) (b : Bool) (c : Char)
    (h : c ∈ collapseWsAux b l) : c = ' ' ∨ c ∈ l := by
  induction l generalizing b with
  | nil => simp [collapseWsAux] at h
  | cons a rest ih =>
    rw [collapseWsAux] at h
    split at h
    · split at h
      · rcases ih true h with h1 | h1
        · exact Or.inl h1
        · exact Or.inr (List.mem_cons_of_mem a h1)
      · rcases List.mem_cons.mp h with rfl | hm
        · exact Or.inl rfl
        · rcases ih true hm with h1 | h1
          · exact Or.inl h1
          · exact Or.inr (List.mem_cons_of_mem a h1)
    · rcases List.mem_cons.mp h with rfl | hm
      · exact Or.inr (List.mem_cons_self c rest)
      · rcases ih false hm with h1 | h1
        · exact Or.inl h1
        · exact Or.inr (List.mem_cons_of_mem a h1)

theorem mem_dropTrailWs (l : List Char) (c : Char) (h : c ∈ dropTrailWs l) : c ∈ l := by
  induction l with
  | nil => simp [dropTrailWs] at h
  | cons a rest ih =>
    rw [dropTrailWs] at h
    rcases hdt : dropTrailWs rest with _ | ⟨d, t⟩ <;> rw [hdt] at h
    · by_cases hws : isPyWhitespace a = true
      · rw [if_pos hws] at h; simp at h
      · rw [if_neg hws] at h
        rcases List.mem_cons.mp h with rfl | hm
        · exact List.mem_cons_self c rest
        · simp at hm
    · rcases List.mem_cons.mp h with rfl | hm
      · exact List.mem_cons_self c rest
      · exact List.mem_cons_of_mem a (ih (hdt ▸ hm))

theorem collapseWsAux_noLead (l : List Char) : noLeadWs (collapseWsAux true l) = true := by
  induction l with
  | nil => rfl
  | cons a rest ih =>
    rw [collapseWsAux]
    split
    · exact ih
    · simp_all [noLeadWs]

theorem collapseWsAux_noAdj (l : List Char) (b : Bool) :
    noAdjWs (collapseWsAux b l) = true := by
  induction l generalizing b with
  | nil => rfl
  | cons a rest ih =>
    rw [collapseWsAux]
    split
    · split
      · exact ih true
      · rw [noAdjWs]
        simp [collapseWsAux_noLead rest, ih true]
    · rw [noAdjWs]
      simp_all [ih false]

theorem dropTrailWs_shape (a : Char) (l : List Char) :
    dropTrailWs (a :: l) = [] ∨ ∃ t, dropTrailWs (a :: l) = a :: t := by
  rw [dropTrailWs]
  rcases hdt : dropTrailWs l with _ | ⟨d, t⟩
  · by_cases hws : isPyWhitespace a = true
    · rw [if_pos hws]; exact Or.inl rfl
    · rw [if_neg hws]; exact Or.inr ⟨[], rfl⟩
  · exact Or.inr ⟨d :: t, rfl⟩

theorem dropWhileWs_noAdj (l : List Char) (h : noAdjWs l = true) :
    noAdjWs (l.dropWhile isPyWhitespace) = true := by
  induction l with
  | nil => exact h
  | cons a rest ih =>
    rw [List.dropWhile_cons]
    rw [noAdjWs] at h
    split
    · exact ih (by simp_all)
    · exact h

theorem dropTrailWs_noAdj (l : List Char) (h : noAdjWs l = true) :
    noAdjWs (dropTrailWs l) = true := by
  induction l with
  | nil => exact h
  | cons a rest ih =>
    rw [noAdjWs] at h
    rw [dropTrailWs]
    rcases hdt : dropTrailWs rest with _ | ⟨d, t⟩
    · by_cases hws : isPyWhitespace a = true <;>
        simp [hws, noAdjWs, noLeadWs]
    · have hrest : noAdjWs (d :: t) = true := hdt ▸ ih (by simp_all)
      rw [noAdjWs]
      refine (Bool.and_eq_true _ _).mpr ⟨?_, hrest⟩
      rcases Bool.or_eq_true_iff.mp ((Bool.and_eq_true _ _).mp h).1 with h1 | h1
      · simp [h1]
      · cases rest with
        | nil => simp [dropTrailWs] at hdt
        | cons e rest2 =>
          rcases dropTrailWs_shape e rest2 with hsh | ⟨t2, hsh⟩
          · rw [hsh] at hdt; cases hdt
          · rw [hsh] at hdt
            injection hdt with hde _
            subst hde
            simp_all [noLeadWs]

theorem dropTrailWs_noTrail (l : List Char) : noTrailWs (dropTrailWs l) = true := by
  induction l with
  | nil => rfl
  | cons a rest ih =>
    rw [dropTrailWs]
    rcases hdt : dropTrailWs rest with _ | ⟨d, t⟩
    · by_cases hws : isPyWhitespace a = true <;>
        simp [hws, noTrailWs]
    · rw [noTrailWs]
      exact hdt ▸ ih

theorem dropWhileWs_noLead (l : List Char) :
    noLeadWs (l.dropWhile isPyWhitespace) = true := by
  induction l with
  | nil => rfl
  | cons a rest ih =>
    rw [List.dropWhile_cons]
    split
    · exact ih
    · simp_all [noLeadWs]

theorem dropTrailWs_noLead (l : List Char) (h : noLeadWs l = true) :
    noLeadWs (dropTrailWs l) = true := by
  cases l with
  | nil => exact h
  | cons a rest =>
    rcases dropTrailWs_shape a rest with hsh | ⟨t, hsh⟩ <;> rw [hsh]
    · rfl
    · simp_all [noLeadWs]

theorem allowedChar_ws_eq_space (c : Char) (hall : allowedChar c = true)
    (hws : isPyWhitespace c = true) : c = ' ' := by
  simp only [isPyWhitespace, Bool.or_eq_true, decide_eq_true_eq] at hws
  rcases hws with ((((h | h) | h) | h) | h) | h <;> subst h <;> first
  | rfl
  | (exfalso; revert hall; decide)

set_option maxHeartbeats 1000000 in
theorem htmlUnescape_cons_ne (c : Char) (rest : List Char) (h : ¬c = '&') :
    htmlUnescape (c :: rest) = c :: htmlUnescape rest := by
  rw [htmlUnescape.eq_def]
  simp [h]

theorem htmlUnescape_eq_self (l : List Char) (h : ∀ c ∈ l, ¬c = '&') :
    htmlUnescape l = l := by
  induction l with
  | nil => rfl
  | cons a rest ih =>
    rw [htmlUnescape_cons_ne a rest (h a (List.mem_cons_self a rest))]
    rw [ih fun c hc => h c (List.mem_cons_of_mem a hc)]

theorem asciiFilter_eq_self (l : List Char) (h : ∀ c ∈ l, allowedChar c = true) :
    asciiFilter l = l := by
  induction l with
  | nil => rfl
  | cons a rest ih =>
    have ha := h a (List.mem_cons_self a rest)
    have ha' := ha
    simp only [allowedChar, Bool.and_eq_true] at ha'
    rw [asciiFilter, if_pos (by simp [ha'.1.1, ha'.1.2]),
        if_neg (by simpa using ha'.2), ih fun c hc => h c (List.mem_cons_of_mem a hc)]

theorem collapseWsAux_eq_self (l : List Char) (hall : ∀ c ∈ l, allowedChar c = true)
    (hadj : noAdjWs l = true) :
    ∀ b, (b = true → noLeadWs l = true) → collapseWsAux b l = l := by
  induction l with
  | nil => intro b _; rfl
  | cons a rest ih =>
    intro b hb
    rw [noAdjWs, Bool.and_eq_true] at hadj
    by_cases hws : isPyWhitespace a = true
    · have hsp : a = ' ' := allowedChar_ws_eq_space a (hall a (List.mem_cons_self a rest)) hws
      cases b with
      | true => simp [noLeadWs, hws] at hb
      | false =>
        rw [collapseWsAux, if_pos hws, if_neg (by simp), hsp]
        rw [ih (fun c hc => hall c (List.mem_cons_of_mem a hc)) hadj.2 true
            (fun _ => by simpa [hws] using hadj.1)]
    · rw [collapseWsAux, if_neg hws]
      rw [ih (fun c hc => hall c (List.mem_cons_of_mem a hc)) hadj.2 false (by simp)]

theorem collapseWs_eq_self (l : List Char) (hall : ∀ c ∈ l, allowedChar c = true)
    (hadj : noAdjWs l = true) : collapseWs l = l :=
  collapseWsAux_eq_self l hall hadj false (by simp)

theorem dropWhileWs_eq_self (l : List Char) (h : noLeadWs l = true) :
    l.dropWhile isPyWhitespace = l := by
  cases l with
  | nil => rfl
  | cons a rest =>
    simp only [noLeadWs, Bool.not_eq_true'] at h
    rw [List.dropWhile_cons, if_neg (by simp [h])]

theorem dropTrailWs_eq_self (l : List Char) (h : noTrailWs l = true) :
    dropTrailWs l = l := by
  induction l with
  | nil => rfl
  | cons a rest ih =>
    cases rest with
    | nil =>
      simp only [noTrailWs, Bool.not_eq_true'] at h
      rw [dropTrailWs]
      simp [dropTrailWs, h]
    | cons d t =>
      rw [noTrailWs] at h
      have hr := ih h
      rw [dropTrailWs, hr]

theorem stripWs_eq_self (l : List Char) (hlead : noLeadWs l = true)
    (htrail : noTrailWs l = true) : stripWs l = l := by
  rw [stripWs, dropWhileWs_eq_self l hlead, dropTrailWs_eq_self l htrail]

theorem sanitizeMessageText_invariants (x : String) :
    (∀ c ∈ (sanitizeMessageText x).data, allowedChar c = true) ∧
    noAdjWs (sanitizeMessageText x).data = true ∧
    noLeadWs (sanitizeMessageText x).data = true ∧
    noTrailWs (sanitizeMessageText x).data = true := by
  rw [sanitizeMessageText]
  split
  · rename_i hx
    rw [hx]
    exact ⟨by simp, rfl, rfl, rfl⟩
  · refine ⟨?_, ?_, ?_, ?_⟩
    · intro c hc
      have h1 := mem_dropTrailWs _ c hc
      have h2 := (List.dropWhile_sublist isPyWhitespace).mem h1
      rcases mem_collapseWsAux _ false c h2 with rfl | h3
      · decide
      · exact mem_asciiFilter _ c h3
    · exact dropTrailWs_noAdj _ (dropWhileWs_noAdj _ (collapseWsAux_noAdj _ false))
    · exact dropTrailWs_noLead _ (dropWhileWs_noLead _)
    · exact dropTrailWs_noTrail _

/-!
## Claims
-/

/-- Instance configuration with no auth token, whitelist, blacklist, or
keywords. -/
def emptyConfig : InstanceConfig :=
  { auth_token := none, sender_whitelist := [], sender_blacklist := [], keywords := [] }

/-- The Provider-A end-to-end payload of the C1 scenario. -/
def c1Payload : String :=
  "Body=Hello*World&From=%2B61412345678&To=%2B61400000000&MessageSid=SM123"

/-- Outcome of delivering the C1 payload to the webhook handler with no
filters configured. -/
def c1Result : WebhookResult :=
  handleWebhook (fun _ _ => false) emptyConfig true (some 72) true (some (parseQs c1Payload))

/-- C1, counterexample: the claim expects the stored body to be the
sanitized `"Hello World"`, but the webhook path never invokes the
sanitizer — the record is stored with body `"Hello*World"`, which
differs from the claimed value. -/
theorem c1_counterexample :
    c1Result.stored.map MessageData.body = some "Hello*World" ∧
    ("Hello*World" : String) ≠ "Hello World" := by decide

/-- C1, amended: the Provider-A form payload
`Body=Hello*World&From=%2B61412345678&To=%2B61400000000&MessageSid=SM123`
with no filters configured is stored unsanitized — body `"Hello*World"`
(asterisk preserved) and sender `"+61412345678"` — exactly one
message-received event fires, and the handler responds 200. -/
theorem c1_amended :
    c1Result.stored =
      some { body := "Hello*World", sender := "+61412345678", to_number := "+61400000000",
             message_sid := "SM123", provider := "twilio", matched_keywords := [] } ∧
    (c1Result.events.filter isMessageReceivedEvent).length = 1 ∧
    c1Result.response.status = 200 := by decide

/-- C2, code bug: the source line `if False and auth_token and not
_validate_twilio_signature(...)` short-circuits on the literal `False`,
so even with an auth token configured and an invalid signature the
delivery is fully processed with status 200 and stored; the 403
rejection the claim (and the code's own comment) describe is
unreachable. -/
theorem c2_signature_validation_disabled (signatureValid : Bool) :
    (handleWebhook (fun _ _ => false)
        { auth_token := some "secret", sender_whitelist := [], sender_blacklist := [],
          keywords := [] }
        signatureValid (some 60) true
        (some [("Body", "Hello"), ("From", "+61412345678")])).response.status = 200 ∧
    (handleWebhook (fun _ _ => false)
        { auth_token := some "secret", sender_whitelist := [], sender_blacklist := [],
          keywords := [] }
        signatureValid (some 60) true
        (some [("Body", "Hello"), ("From", "+61412345678")])).stored =
      some { body := "Hello", sender := "+61412345678", to_number := "", message_sid := "",
             provider := "twilio", matched_keywords := [] } := by
  cases signatureValid <;> exact ⟨by decide, by decide⟩

/-- A 1200-character body, used to exhibit the truncation bound. -/
def longBody : String := String.mk (List.replicate 1200 'a')

set_option maxRecDepth 100000 in
/-- C3, counterexample: a valid payload with a 1200-character body is
extracted with its body intact (1200 characters), refuting the claimed
1000-character truncation — the source truncates at 1600
(`body[:1600]`), not 1000. -/
theorem c3_counterexample :
    (extractMessageData [("Body", longBody), ("From", "+61412345678")]).map
      (fun m => m.body.length) = some 1200 ∧ ¬(1200 ≤ 1000) := by
  exact ⟨by decide, by decide⟩

/-- C3, amended: every record produced by webhook extraction has body
length at most 1600 characters (the source truncates `body[:1600]`)
and carries the fixed provider tag `"twilio"`. -/
theorem c3_amended (data : List (String × String)) (m : MessageData)
    (h : extractMessageData data = some m) :
    m.body.length ≤ 1600 ∧ m.provider = "twilio" := by
  simp only [extractMessageData] at h
  split at h
  · cases h
  · split at h
    · cases h
      refine ⟨?_, rfl⟩
      show (List.take 1600 _).length ≤ 1600
      simp [List.length_take]
    · rename_i hlen
      cases h
      refine ⟨?_, rfl⟩
      show (dictGetD data "Body" "").length ≤ 1600
      omega

/-- Witness for the amended C3 at a concrete payload. -/
theorem c3_amended_witness :
    extractMessageData [("Body", "Hi"), ("From", "+61412345678")] =
      some { body := "Hi", sender := "+61412345678", to_number := "", message_sid := "",
             provider := "twilio", matched_keywords := [] } ∧
    (("Hi" : String).length ≤ 1600 ∧ ("twilio" : String) = "twilio") :=
  ⟨by decide, c3_amended [("Body", "Hi"), ("From", "+61412345678")]
      { body := "Hi", sender := "+61412345678", to_number := "", message_sid := "",
        provider := "twilio", matched_keywords := [] } (by decide)⟩

/-- C4, counterexample: with whitelist `["+61412345678"]` and blacklist
`["+61412345678"]`, a message from `"+61412345678"` passes the
whitelist but is then dropped by the blacklist check, so
`should_process` is `false` where the claim requires `true`. -/
theorem c4_counterexample :
    shouldProcessMessage
      { auth_token := none, sender_whitelist := ["+61412345678"],
        sender_blacklist := ["+61412345678"], keywords := [] }
      { body := "hi", sender := "+61412345678", to_number := "", message_sid := "",
        provider := "twilio", matched_keywords := [] } = false := by decide

/-- C4, amended: `should_process` is true exactly when the sender
passes the whitelist (empty, or listed) AND passes the blacklist
(empty, or not listed) — the blacklist is consulted even when a
non-empty whitelist admitted the sender. -/
theorem c4_amended (config : InstanceConfig) (message : MessageData) :
    shouldProcessMessage config message = true ↔
      ((config.sender_whitelist = [] ∨ message.sender ∈ config.sender_whitelist) ∧
       (config.sender_blacklist = [] ∨ message.sender ∉ config.sender_blacklist)) := by
  simp only [shouldProcessMessage]
  split_ifs with h1 h2
  · simp_all [List.isEmpty_iff, List.elem_iff]
  · simp_all [List.isEmpty_iff, List.elem_iff]
  · simp_all [List.isEmpty_iff, List.elem_iff]
    tauto

/-- C5: every character of the sanitizer's output lies in the printable
ASCII range 32–126 and is not a markup-trigger character. -/
theorem c5_sanitizer_output_clean (s : String) (c : Char)
    (h : c ∈ (sanitizeMessageText s).data) :
    32 ≤ c.toNat ∧ c.toNat ≤ 126 ∧ c ∉ markupChars := by
  have hal := (sanitizeMessageText_invariants s).1 c h
  simp only [allowedChar, Bool.and_eq_true, decide_eq_true_eq, Bool.not_eq_true'] at hal
  refine ⟨hal.1.1, hal.1.2, fun hmem => ?_⟩
  have hb : markupChars.contains c = true := List.elem_iff.mpr hmem
  rw [hal.2] at hb
  exact Bool.noConfusion hb

/-- Witness for C5 at a concrete input. -/
theorem c5_witness :
    'H' ∈ (sanitizeMessageText "Hello*World").data ∧
    (32 ≤ 'H'.toNat ∧ 'H'.toNat ≤ 126 ∧ 'H' ∉ markupChars) :=
  ⟨by decide, c5_sanitizer_output_clean "Hello*World" 'H' (by decide)⟩

/-- C6, counterexample: the sanitizer is not idempotent.  On `"%2541"`
the first pass percent-decodes once (`%25` → `%`), producing `"%41"`;
feeding that output back percent-decodes again, yielding `"A"`.  So
`sanitize(sanitize("%2541")) = "A" ≠ "%41" = sanitize("%2541")`. -/
theorem c6_counterexample :
    sanitizeMessageText (sanitizeMessageText "%2541") ≠ sanitizeMessageText "%2541" := by decide

/-- C6, amended: the sanitizer is idempotent on every input whose
sanitized form contains neither a `%` nor a `&` — the re-decoding steps
(percent-decoding and HTML-entity decoding) are the only sources of
non-idempotence, and they only act on those two characters. -/
theorem c6_amended (x : String)
    (hp : '%' ∉ (sanitizeMessageText x).data)
    (ha : '&' ∉ (sanitizeMessageText x).data) :
    sanitizeMessageText (sanitizeMessageText x) = sanitizeMessageText x := by
  obtain ⟨hall, hadj, hlead, htrail⟩ := sanitizeMessageText_invariants x
  by_cases hempty : sanitizeMessageText x = ""
  · rw [hempty]; decide
  · rw [sanitizeMessageText, if_neg hempty]
    have hc : ((sanitizeMessageText x).data.contains '%' &&
        hasPercentEscape (sanitizeMessageText x).data) = false := by
      have : (sanitizeMessageText x).data.contains '%' = false := by
        rcases hcc : (sanitizeMessageText x).data.contains '%' with _ | _
        · rfl
        · exact absurd (List.elem_iff.mp hcc) hp
      rw [this, Bool.false_and]
    rw [hc]
    simp only [Bool.false_eq_true, if_false]
    rw [htmlUnescape_eq_self _ (fun c hc => fun hceq => ha (hceq ▸ hc)),
        asciiFilter_eq_self _ hall,
        collapseWs_eq_self _ hall hadj,
        stripWs_eq_self _ hlead htrail]

/-- Witness for the amended C6 at a concrete input. -/
theorem c6_amended_witness :
    ('%' ∉ (sanitizeMessageText "hello world").data ∧
     '&' ∉ (sanitizeMessageText "hello world").data) ∧
    sanitizeMessageText (sanitizeMessageText "hello world") = sanitizeMessageText "hello world" :=
  ⟨⟨by decide, by decide⟩, c6_amended "hello world" (by decide) (by decide)⟩

/-- A concrete record for history entries used in store examples. -/
def sampleMessage : MessageData :=
  { body := "boundary", sender := "+61400000001", to_number := "", message_sid := "SID1",
    provider := "twilio", matched_keywords := [] }

/-- A history entry stored exactly 180 days before the `now` used in
the C7 counterexample. -/
def boundaryEntry : HistoryEntry :=
  { message := sampleMessage, stored_at := some "2024-01-01T00:00:00+00:00" }

/-- The same boundary instant in the exact shape `store_message`
writes (`utcnow().isoformat()`: microsecond precision, `+00:00`). -/
def microBoundaryEntry : HistoryEntry :=
  { message := sampleMessage, stored_at := some "2024-01-01T00:00:00.000000+00:00" }

/-- C7, counterexample: with `now` = 2024-06-29T00:00:00Z, the
retention cutoff is exactly 2024-01-01T00:00:00Z; an entry stored at
precisely that boundary instant — whether written second-precision or
in the microsecond shape `store_message` itself produces — is removed
by the cleanup (`stored_at > cutoff_date` is strict), while the claim
requires boundary entries to be retained. -/
theorem c7_counterexample :
    parseIsoUtc "2024-01-01T00:00:00+00:00" =
      some (retentionCutoff (1704067200000000 + 180 * 86400 * 1000000)) ∧
    parseIsoUtc "2024-01-01T00:00:00.000000+00:00" =
      some (retentionCutoff (1704067200000000 + 180 * 86400 * 1000000)) ∧
    cleanupOldMessages (1704067200000000 + 180 * 86400 * 1000000)
      [boundaryEntry, microBoundaryEntry] = [] := by
  exact ⟨by decide, by decide, by decide⟩

/-- C7, amended: cleanup retains exactly the entries whose storage
timestamp is absent, empty, or unparseable/incomparable, or parses to
an instant strictly newer than the 180-day cutoff; entries at exactly
the cutoff or older are removed. -/
theorem c7_amended (now : Int) (history : List HistoryEntry) (e : HistoryEntry) :
    e ∈ cleanupOldMessages now history ↔
      e ∈ history ∧ (∀ s, e.stored_at = some s → s ≠ "" →
        ∀ t, parseIsoUtc s = some t → t > retentionCutoff now) := by
  rw [cleanupOldMessages, List.mem_filter]
  refine and_congr_right fun _ => ?_
  rcases hsa : e.stored_at with _ | s
  · simp [hsa]
  · simp only [hsa]
    by_cases hs : s = ""
    · simp [hs]
    · rw [if_neg hs]
      rcases hp : parseIsoUtc s with _ | t
      · simp [hp, hs]
      · simp [hp, hs]

/-- C9: a delivery whose parsed `Body` is exactly `"Test+from+curl"` or
`"Test from curl"` takes the test branch for every configuration,
signature outcome, and regex engine — bypassing signature validation,
sender filtering and keyword matching — fires one message-received
event carrying the substituted body `"Webhook Test Successful"` with
provider `"test"`, stores that substituted record, and responds 200. -/
theorem c9_test_message_bypass (regexSearch : String → String → Bool)
    (config : InstanceConfig) (signatureValid : Bool) (contentLength : Option Nat)
    (data : List (String × String))
    (hsize : tooLarge contentLength = false)
    (hbody : dictGet data "Body" = some "Test+from+curl" ∨
             dictGet data "Body" = some "Test from curl") :
    handleWebhook regexSearch config signatureValid contentLength true (some data) =
      { response := { status := 200, text := "Test message processed successfully" },
        events := [DomainEvent.webhookTest,
          DomainEvent.messageReceived
            { body := "Webhook Test Successful", sender := dictGetD data "From" "+TEST",
              to_number := dictGetD data "To" "+TEST",
              message_sid := dictGetD data "MessageSid" "TEST",
              provider := "test", matched_keywords := [] },
          DomainEvent.testSuccess, DomainEvent.dataUpdated],
        stored := some
          { body := "Webhook Test Successful", sender := dictGetD data "From" "+TEST",
            to_number := dictGetD data "To" "+TEST",
            message_sid := dictGetD data "MessageSid" "TEST",
            provider := "test", matched_keywords := [] } } := by
  rw [handleWebhook]
  rw [if_neg (by simp [hsize]), if_neg (by simp)]
  show (if dictGet data "Body" = some "Test+from+curl" ∨
          dictGet data "Body" = some "Test from curl" then _ else _ :
        WebhookResult) = _
  rw [if_pos hbody]

/-- Witness for C9 at a concrete `curl` test payload. -/
theorem c9_test_message_bypass_witness :
    (tooLarge (some 30) = false ∧
     (dictGet [("Body", "Test from curl")] "Body" = some "Test+from+curl" ∨
      dictGet [("Body", "Test from curl")] "Body" = some "Test from curl")) ∧
    handleWebhook (fun _ _ => false) emptyConfig true (some 30) true
        (some [("Body", "Test from curl")]) =
      { response := { status := 200, text := "Test message processed successfully" },
        events := [DomainEvent.webhookTest,
          DomainEvent.messageReceived
            { body := "Webhook Test Successful", sender := "+TEST", to_number := "+TEST",
              message_sid := "TEST", provider := "test", matched_keywords := [] },
          DomainEvent.testSuccess, DomainEvent.dataUpdated],
        stored := some
          { body := "Webhook Test Successful", sender := "+TEST", to_number := "+TEST",
            message_sid := "TEST", provider := "test", matched_keywords := [] } } :=
  ⟨⟨by decide, by decide⟩,
    c9_test_message_bypass (fun _ _ => false) emptyConfig true (some 30)
      [("Body", "Test from curl")] (by decide) (by decide)⟩

/-- C10: the binary sensor's message-received handler never inspects
the event payload — its outcome is identical for any two events — and
whenever the sensor's own entry id is present in the domain data the
sensor turns on, regardless of which integration instance produced the
message. -/
theorem c10_sensor_ignores_event_source (domainData : Option (List String))
    (entryId : String) (event1 event2 : MessageData) (isOn : Bool) :
    handleMessageReceived domainData entryId event1 isOn =
      handleMessageReceived domainData entryId event2 isOn ∧
    (∀ entries, domainData = some entries → entryId ∈ entries →
      handleMessageReceived domainData entryId event1 isOn = true) := by
  constructor
  · rfl
  · intro entries hd hm
    subst hd
    simp only [handleMessageReceived]
    rw [if_pos (List.elem_iff.mpr hm)]

/-- Witness for C10: a message from one entry turns on a sensor
belonging to a different entry. -/
theorem c10_witness :
    ((some ["entryA", "entryB"] : Option (List String)) = some ["entryA", "entryB"] ∧
     "entryB" ∈ ["entryA", "entryB"]) ∧
    handleMessageReceived (some ["entryA", "entryB"]) "entryB" sampleMessage false = true :=
  ⟨⟨rfl, by decide⟩,
    (c10_sensor_ignores_event_source (some ["entryA", "entryB"]) "entryB"
      sampleMessage sampleMessage false).2 ["entryA", "entryB"] rfl (by decide)⟩
